import Mathlib

set_option maxHeartbeats 1000000

/- Shallow embedding of src/src/dsp/moog_engine.c and the render entry of
   src/src/dsp/moog_plugin.cpp (RaffoSynth engine port).
   C float/double arithmetic is modelled by exact rational arithmetic; the
   libm transcendentals (sinf, pow, powf) are abstract function parameters
   on the executable render path, and exact real powers (Real.rpow) where a
   claim needs their arithmetic. -/

/-- Envelope states, from moog_engine.h. -/
inductive moog_env_state_t
  | ENV_OFF
  | ENV_ATTACK
  | ENV_DECAY
  | ENV_SUSTAIN
  | ENV_RELEASE
  deriving DecidableEq, Repr

/-- Oscillator waveform types, from moog_engine.h. -/
inductive moog_wave_t
  | WAVE_TRIANGLE
  | WAVE_SAWTOOTH
  | WAVE_SQUARE
  | WAVE_PULSE
  deriving DecidableEq, Repr

/-- MOOG_MAX_KEYS from moog_engine.h. -/
def MOOG_MAX_KEYS : ℕ := 16

/-- MOOG_SAMPLE_RATE from moog_engine.h. -/
def MOOG_SAMPLE_RATE : ℚ := 44100

/-- Conversion of a MIDI note to a frequency in Hz: note_to_hz in
moog_engine.c, with 1.0594630943593 the source code constant for the
twelfth root of two. -/
def note_to_hz (note : ℤ) : ℚ :=
  81758 / 10000 * (10594630943593 / 10000000000000 : ℚ) ^ note

/-- Conversion of a frequency to a period in samples: hz_to_period in
moog_engine.c. -/
def hz_to_period (hz : ℚ) (sample_rate : ℚ) : ℚ :=
  if hz < 1 then sample_rate else sample_rate / hz

/-- Clamp to a range: clampf in moog_engine.c (lower bound tested first). -/
def clampf (v lo hi : ℚ) : ℚ :=
  if v < lo then lo else if v > hi then hi else v

/-- Map a normalized 0.0-1.0 parameter to a time in samples: param_to_time
in moog_engine.c. -/
def param_to_time (param : ℚ) (sample_rate : ℚ) : ℚ :=
  (1 / 1000 + param * param * 5) * sample_rate

/-- Truncation toward zero, the rounding used by C fmod. -/
def qtrunc (x : ℚ) : ℤ :=
  if 0 ≤ x then ⌊x⌋ else ⌈x⌉

/-- C fmod on rationals: x minus y times the truncated quotient. -/
def qfmod (x y : ℚ) : ℚ :=
  x - y * (qtrunc (x / y) : ℚ)

/-- M_PI literal used by the render loop. -/
def qpi : ℚ := 314159265358979323846 / 100000000000000000000

/-- White noise step: noise_sample in moog_engine.c.  The uint32 seed is a
natural number kept below 2 to the 32; the int32 reinterpretation divides
by 0x7FFFFFFF. -/
def noise_sample (seed : ℕ) : ℕ × ℚ :=
  let s := (seed * 1664525 + 1013904223) % 2 ^ 32
  (s, (if s < 2 ^ 31 then (s : ℚ) else (s : ℚ) - 2 ^ 32) / 2147483647)

/-- Triangle oscillator: osc_triangle in moog_engine.c. -/
def osc_triangle (counter period : ℚ) : ℚ :=
  let phase := qfmod (counter + period / 4) period / period
  4 * (|phase - 1/2| - 1/4)

/-- Sawtooth oscillator: osc_sawtooth in moog_engine.c. -/
def osc_sawtooth (counter period : ℚ) : ℚ :=
  2 * (qfmod counter period / period) - 1

/-- Square oscillator: osc_square in moog_engine.c. -/
def osc_square (counter period : ℚ) : ℚ :=
  if qfmod counter period / period < 1/2 then 1 else -1

/-- Pulse oscillator: osc_pulse in moog_engine.c (20 percent duty cycle). -/
def osc_pulse (counter period : ℚ) : ℚ :=
  if qfmod counter period / period < 1/5 then 1 else -1

/-- Waveform dispatch: generate_osc in moog_engine.c. -/
def generate_osc (wave : moog_wave_t) (counter period : ℚ) : ℚ :=
  match wave with
  | .WAVE_TRIANGLE => osc_triangle counter period
  | .WAVE_SAWTOOTH => osc_sawtooth counter period
  | .WAVE_SQUARE => osc_square counter period
  | .WAVE_PULSE => osc_pulse counter period

/-- The five state variables envelope_process mutates through pointers. -/
structure env_vars_t where
  state : moog_env_state_t
  level : ℚ
  attack_level : ℚ
  release_level : ℚ
  counter : ℚ
  deriving DecidableEq, Repr

/-- ADSR step: envelope_process in moog_engine.c.  On the attack, decay
and release branches the counter is incremented after the branch body, so
a transition leaves the counter at one. -/
def envelope_process (v : env_vars_t) (attack decay sustain release : ℚ)
    (sample_rate : ℚ) : env_vars_t :=
  let atk_time := param_to_time attack sample_rate
  let dec_time := param_to_time decay sample_rate
  let rel_time := param_to_time release sample_rate
  match v.state with
  | .ENV_ATTACK =>
    let progress := v.counter / atk_time
    let v' :=
      if progress ≥ 1 then
        { v with level := 1, state := .ENV_DECAY, counter := 0 }
      else
        let start := v.attack_level
        let p := progress * progress
        { v with level := start + (1 - start) * p }
    { v' with counter := v'.counter + 1 }
  | .ENV_DECAY =>
    let progress := v.counter / dec_time
    let v' :=
      if progress ≥ 1 then
        { v with level := sustain, state := .ENV_SUSTAIN, counter := 0 }
      else
        let p := 1 - progress
        { v with level := sustain + (1 - sustain) * p * p }
    { v' with counter := v'.counter + 1 }
  | .ENV_SUSTAIN =>
    { v with level := sustain }
  | .ENV_RELEASE =>
    let progress := v.counter / rel_time
    let v' :=
      if progress ≥ 1 then
        { v with level := 0, state := .ENV_OFF, counter := 0 }
      else
        let p := 1 - progress
        { v with level := v.release_level * p * p }
    { v' with counter := v'.counter + 1 }
  | .ENV_OFF =>
    { v with level := 0 }

/-- Engine state: moog_engine_t from moog_engine.h.  The C arrays are
functions out of Fin, the key stack array plus its count is a list whose
length is the count, and the int gate is a Bool. -/
structure moog_engine_t where
  sample_rate : ℚ
  osc_wave : Fin 4 → moog_wave_t
  osc_volume : Fin 4 → ℚ
  osc_range : Fin 4 → ℤ
  osc2_detune : ℚ
  osc3_detune : ℚ
  osc4_detune : ℚ
  filter_cutoff : ℚ
  filter_resonance : ℚ
  filter_contour : ℚ
  filter_key_follow : ℚ
  amp_attack : ℚ
  amp_decay : ℚ
  amp_sustain : ℚ
  amp_release : ℚ
  filt_attack : ℚ
  filt_decay : ℚ
  filt_sustain : ℚ
  filt_release : ℚ
  glide : ℚ
  master_volume : ℚ
  noise_volume : ℚ
  mod_wheel : ℚ
  mod_to_filter : ℚ
  mod_to_pitch : ℚ
  pitch_bend : ℚ
  bend_range : ℚ
  counter : ℚ
  period : ℚ
  glide_period : ℚ
  last_val : Fin 5 → ℚ
  amp_env_state : moog_env_state_t
  amp_env_level : ℚ
  amp_env_attack_level : ℚ
  amp_env_release_level : ℚ
  amp_env_counter : ℚ
  filt_env_state : moog_env_state_t
  filt_env_level : ℚ
  filt_env_attack_level : ℚ
  filt_env_release_level : ℚ
  filt_env_counter : ℚ
  filter_prev : Fin 6 → ℚ
  noise_seed : ℕ
  current_note : ℤ
  gate_on : Bool
  key_stack : List ℤ
  octave_transpose : ℤ
  lfo_rate : ℚ
  lfo_phase : ℚ
  lfo_depth_pitch : ℚ
  lfo_depth_filter : ℚ
  velocity : ℚ
  velocity_sensitivity : ℚ

/-- Engine initialization: moog_engine_init in moog_engine.c.  The memset
zeroes every field not assigned afterwards. -/
def moog_engine_init : moog_engine_t where
  sample_rate := MOOG_SAMPLE_RATE
  osc_wave := fun i =>
    if i = 3 then .WAVE_TRIANGLE else .WAVE_SAWTOOTH
  osc_volume := fun i => if i = 0 then 8/10 else 0
  osc_range := fun i => if i = 2 then -1 else 0
  osc2_detune := 0
  osc3_detune := 0
  osc4_detune := 1/2
  filter_cutoff := 7/10
  filter_resonance := 2/10
  filter_contour := 3/10
  filter_key_follow := 0
  amp_attack := 1/100
  amp_decay := 3/10
  amp_sustain := 7/10
  amp_release := 2/10
  filt_attack := 1/100
  filt_decay := 3/10
  filt_sustain := 3/10
  filt_release := 2/10
  glide := 0
  master_volume := 7/10
  noise_volume := 0
  mod_wheel := 0
  mod_to_filter := 5/10
  mod_to_pitch := 5/10
  pitch_bend := 0
  bend_range := 167/1000
  counter := 0
  period := hz_to_period (note_to_hz 60) MOOG_SAMPLE_RATE
  glide_period := hz_to_period (note_to_hz 60) MOOG_SAMPLE_RATE
  last_val := fun _ => 0
  amp_env_state := .ENV_OFF
  amp_env_level := 0
  amp_env_attack_level := 0
  amp_env_release_level := 0
  amp_env_counter := 0
  filt_env_state := .ENV_OFF
  filt_env_level := 0
  filt_env_attack_level := 0
  filt_env_release_level := 0
  filt_env_counter := 0
  filter_prev := fun _ => 0
  noise_seed := 12345
  current_note := 0
  gate_on := false
  key_stack := []
  octave_transpose := 0
  lfo_rate := 3/10
  lfo_phase := 0
  lfo_depth_pitch := 0
  lfo_depth_filter := 0
  velocity := 1
  velocity_sensitivity := 5/10

/-- Engine reset: moog_engine_reset in moog_engine.c. -/
def moog_engine_reset (e : moog_engine_t) : moog_engine_t :=
  { e with
    amp_env_state := .ENV_OFF
    amp_env_level := 0
    amp_env_counter := 0
    filt_env_state := .ENV_OFF
    filt_env_level := 0
    filt_env_counter := 0
    gate_on := false
    current_note := -1
    key_stack := []
    counter := 0
    filter_prev := fun _ => 0
    last_val := fun _ => 0 }

/-- Octave transpose plus clamp to the MIDI range, as computed inside
moog_engine_note_on and moog_engine_note_off. -/
def effective_note (e : moog_engine_t) (note : ℤ) : ℤ :=
  let n := note + e.octave_transpose * 12
  if n < 0 then 0 else if n > 127 then 127 else n

/-- Target period of a note, as computed inside moog_engine_note_on and
moog_engine_note_off. -/
def target_period (e : moog_engine_t) (note : ℤ) : ℚ :=
  hz_to_period (note_to_hz (effective_note e note)) e.sample_rate

/-- MIDI note on: moog_engine_note_on in moog_engine.c. -/
def moog_engine_note_on (e : moog_engine_t) (note : ℤ) (velocity : ℚ) :
    moog_engine_t :=
  let ks :=
    if e.key_stack.length < MOOG_MAX_KEYS then e.key_stack ++ [note]
    else e.key_stack
  let tgt := target_period e note
  let e :=
    if e.gate_on ∧ e.glide > 1/1000 then
      { e with key_stack := ks, glide_period := tgt }
    else
      { e with key_stack := ks, period := tgt, glide_period := tgt }
  let e := { e with current_note := note, velocity := velocity }
  if e.gate_on then
    e
  else
    { e with
      gate_on := true
      amp_env_attack_level := e.amp_env_level
      amp_env_state := .ENV_ATTACK
      amp_env_counter := 0
      filt_env_attack_level := e.filt_env_level
      filt_env_state := .ENV_ATTACK
      filt_env_counter := 0 }

/-- Removal of the first occurrence of a note, the effect of the shift
loop in moog_engine_note_off. -/
def remove_first (note : ℤ) : List ℤ → List ℤ
  | [] => []
  | x :: xs => if x = note then xs else x :: remove_first note xs

/-- MIDI note off: moog_engine_note_off in moog_engine.c. -/
def moog_engine_note_off (e : moog_engine_t) (note : ℤ) : moog_engine_t :=
  let ks := remove_first note e.key_stack
  let e := { e with key_stack := ks }
  if ks.length > 0 then
    let new_note := ks.getLastD 0
    let tgt := target_period e new_note
    let e := { e with current_note := new_note }
    if e.glide > 1/1000 then
      { e with glide_period := tgt }
    else
      { e with period := tgt, glide_period := tgt }
  else
    let e := { e with gate_on := false }
    let e :=
      if e.amp_env_state ≠ .ENV_OFF then
        { e with
          amp_env_release_level := e.amp_env_level
          amp_env_state := .ENV_RELEASE
          amp_env_counter := 0 }
      else e
    if e.filt_env_state ≠ .ENV_OFF then
      { e with
        filt_env_release_level := e.filt_env_level
        filt_env_state := .ENV_RELEASE
        filt_env_counter := 0 }
    else e

/-- Pitch bend: moog_engine_pitch_bend in moog_engine.c. -/
def moog_engine_pitch_bend (e : moog_engine_t) (bend : ℚ) : moog_engine_t :=
  { e with pitch_bend := bend }

/-- Mod wheel: moog_engine_mod_wheel in moog_engine.c. -/
def moog_engine_mod_wheel (e : moog_engine_t) (amount : ℚ) : moog_engine_t :=
  { e with mod_wheel := amount }

/-- All notes off: moog_engine_all_notes_off in moog_engine.c. -/
def moog_engine_all_notes_off (e : moog_engine_t) : moog_engine_t :=
  { e with
    key_stack := []
    gate_on := false
    amp_env_state := .ENV_OFF
    amp_env_level := 0
    filt_env_state := .ENV_OFF
    filt_env_level := 0
    current_note := -1 }

/-- Ladder filter state: the five taps held in prev[0..4] of
moog_filter_process (filter_prev[0..4] of the engine). -/
structure filter_taps_t where
  b0 : ℚ
  b1 : ℚ
  b2 : ℚ
  b3 : ℚ
  b4 : ℚ
  deriving DecidableEq, Repr

/-- Zeroed filter state, the state after moog_engine_reset. -/
def filter_taps_zero : filter_taps_t := ⟨0, 0, 0, 0, 0⟩

/-- One sample of the 4-pole ladder filter: the loop body of
moog_filter_process in moog_engine.c, given the per-call coefficients f
and fb.  The final tap is clamped to plus or minus 4. -/
def moog_filter_step (f fb : ℚ) (x : ℚ) (s : filter_taps_t) : filter_taps_t :=
  let input := (x - s.b4 * fb) * (35013/100000 * f * f * f * f)
  let b1 := input + 3/10 * s.b0 + (1 - f) * s.b1
  let b0 := input
  let b2 := b1 + 3/10 * b1 + (1 - f) * s.b2
  let b3 := b2 + 3/10 * b2 + (1 - f) * s.b3
  let b4 := b3 + 3/10 * b3 + (1 - f) * s.b4
  let b4 := if b4 > 4 then 4 else if b4 < -4 then -4 else b4
  ⟨b0, b1, b2, b3, b4⟩

/-- Normalized cutoff clamp of moog_filter_process: the upper bound is
tested first, then the lower bound. -/
def filter_fc (cutoff_hz sample_rate : ℚ) : ℚ :=
  let fc := cutoff_hz / sample_rate
  let fc := if fc > 49/100 then 49/100 else fc
  if fc < 1/1000 then 1/1000 else fc

/-- In-place frame loop of moog_filter_process: returns the final taps and
the per-sample outputs, each output being the clamped final tap. -/
def moog_filter_go (f fb : ℚ) (s : filter_taps_t) :
    List ℚ → filter_taps_t × List ℚ
  | [] => (s, [])
  | x :: xs =>
    let s' := moog_filter_step f fb x s
    let r := moog_filter_go f fb s' xs
    (r.1, s'.b4 :: r.2)

/-- Block filter: moog_filter_process in moog_engine.c on an input list. -/
def moog_filter_process (cutoff_hz resonance sample_rate : ℚ)
    (s : filter_taps_t) (xs : List ℚ) : filter_taps_t × List ℚ :=
  let fc := filter_fc cutoff_hz sample_rate
  let f := fc * (29/25)
  let fb := resonance * (1 - 3/20 * f * f)
  moog_filter_go f fb s xs

/-- Per-oscillator effective period on the render path, lines 469-493 of
moog_engine.c, with libm pow passed in as fpow. -/
def osc_period_q (fpow : ℚ → ℚ → ℚ) (e : moog_engine_t)
    (current_period : ℚ) (osc : Fin 4) : ℚ :=
  let p := current_period
  let range := e.osc_range osc
  let p := if range ≠ 0 then p * fpow 2 (-(range : ℚ)) else p
  let p :=
    if osc = 1 ∧ |e.osc2_detune| > 1/1000 then
      p * fpow 2 (-((e.osc2_detune - 1/2) * 100) / 1200)
    else p
  let p :=
    if osc = 2 ∧ |e.osc3_detune| > 1/1000 then
      p * fpow 2 (-((e.osc3_detune - 1/2) * 100) / 1200)
    else p
  let p :=
    if osc = 3 ∧ |e.osc4_detune - 1/2| > 1/1000 then
      p * fpow 2 (-((e.osc4_detune - 1/2) * 100) / 1200)
    else p
  if p < 2 then 2 else p

/-- One iteration of the render loop of moog_engine_render in
moog_engine.c, producing the updated engine and the output sample.  The
libm calls sinf and pow / powf are the parameters sinq and fpow; frames is
the block length used by the glide rate computation. -/
def render_sample (sinq : ℚ → ℚ) (fpow : ℚ → ℚ → ℚ) (frames : ℕ)
    (e : moog_engine_t) : moog_engine_t × ℚ :=
  let sr := e.sample_rate
  let bend_semitones := e.pitch_bend * e.bend_range * 12
  let bend_mult := fpow 2 (bend_semitones / 12)
  let glide_rate : ℚ :=
    if e.glide > 1/1000 then
      1 / (1 + (e.glide * e.glide * 2 * sr) / (frames : ℚ))
    else 1
  let lfo_freq := 1/10 + e.lfo_rate * e.lfo_rate * 20
  let lfo_inc := lfo_freq / sr
  let period :=
    if |e.period - e.glide_period| > 1/100 then
      e.period + (e.glide_period - e.period) * glide_rate
    else e.period
  let current_period := period / bend_mult
  let lfo_phase :=
    let p := e.lfo_phase + lfo_inc
    if p ≥ 1 then p - 1 else p
  let lfo_val := sinq (lfo_phase * 2 * qpi)
  let pitch_mod := lfo_val * e.lfo_depth_pitch * e.mod_to_pitch * e.mod_wheel
  let current_period :=
    if |pitch_mod| > 1/10000 then
      current_period / fpow 2 (pitch_mod * 2 / 12)
    else current_period
  let ampv := envelope_process
    ⟨e.amp_env_state, e.amp_env_level, e.amp_env_attack_level,
     e.amp_env_release_level, e.amp_env_counter⟩
    e.amp_attack e.amp_decay e.amp_sustain e.amp_release sr
  let filtv := envelope_process
    ⟨e.filt_env_state, e.filt_env_level, e.filt_env_attack_level,
     e.filt_env_release_level, e.filt_env_counter⟩
    e.filt_attack e.filt_decay e.filt_sustain e.filt_release sr
  let amp_env := ampv.level
  let filt_env := filtv.level
  let vel_scale :=
    1 - e.velocity_sensitivity + e.velocity_sensitivity * e.velocity
  let sample := ([0, 1, 2, 3] : List (Fin 4)).foldl
    (fun acc osc =>
      if e.osc_volume osc < 1/1000 then acc
      else acc + generate_osc (e.osc_wave osc) e.counter
        (osc_period_q fpow e current_period osc) * e.osc_volume osc) 0
  let seedsample :=
    if e.noise_volume > 1/1000 then
      let ns := noise_sample e.noise_seed
      (ns.1, sample + ns.2 * e.noise_volume)
    else (e.noise_seed, sample)
  let sample := seedsample.2 * amp_env * vel_scale
  let base_cutoff := e.filter_cutoff
  let filt_env_mod := filt_env * e.filter_contour
  let key_track :=
    if e.current_note ≥ 0 then
      ((e.current_note : ℚ) - 60) / 127 * e.filter_key_follow
    else 0
  let lfo_filt := lfo_val * e.lfo_depth_filter * e.mod_to_filter * (3/10)
  let cutoff_normalized :=
    clampf (base_cutoff + filt_env_mod + key_track + lfo_filt) 0 1
  let cutoff_hz := 20 * fpow 1000 cutoff_normalized
  let fc := cutoff_hz / sr
  let fc := if fc > 49/100 then 49/100 else fc
  let fc := if fc < 1/1000 then 1/1000 else fc
  let f := fc * (29/25)
  let fb := e.filter_resonance * (1 - 3/20 * f * f)
  let input := (sample - e.filter_prev 4 * fb) * (35013/100000 * f * f * f * f)
  let p1 := input + 3/10 * e.filter_prev 0 + (1 - f) * e.filter_prev 1
  let p0 := input
  let p2 := p1 + 3/10 * p1 + (1 - f) * e.filter_prev 2
  let p3 := p2 + 3/10 * p2 + (1 - f) * e.filter_prev 3
  let p4 := p3 + 3/10 * p3 + (1 - f) * e.filter_prev 4
  let p4 := if p4 > 4 then 4 else if p4 < -4 then -4 else p4
  let out := p4 * e.master_volume
  ({ e with
      period := period
      lfo_phase := lfo_phase
      amp_env_state := ampv.state
      amp_env_level := ampv.level
      amp_env_counter := ampv.counter
      filt_env_state := filtv.state
      filt_env_level := filtv.level
      filt_env_counter := filtv.counter
      noise_seed := seedsample.1
      filter_prev := fun i =>
        if i = 0 then p0 else if i = 1 then p1 else if i = 2 then p2
        else if i = 3 then p3 else if i = 4 then p4 else e.filter_prev i
      counter := e.counter + 1 }, out)

/-- Sample loop of moog_engine_render: n iterations of render_sample with
block length frames, collecting the output buffer in order. -/
def render_go (sinq : ℚ → ℚ) (fpow : ℚ → ℚ → ℚ) (frames : ℕ)
    (e : moog_engine_t) : ℕ → moog_engine_t × List ℚ
  | 0 => (e, [])
  | n + 1 =>
    let s := render_sample sinq fpow frames e
    let r := render_go sinq fpow frames s.1 n
    (r.1, s.2 :: r.2)

/-- Audio render: moog_engine_render in moog_engine.c, writing one output
sample per frame. -/
def moog_engine_render (sinq : ℚ → ℚ) (fpow : ℚ → ℚ → ℚ)
    (e : moog_engine_t) (frames : ℕ) : moog_engine_t × List ℚ :=
  render_go sinq fpow frames e frames

/-- Frame clamp of v2_render_block in moog_plugin.cpp: a request above 256
frames is silently truncated to 256 before moog_engine_render runs. -/
def v2_render_frames (frames : ℕ) : ℕ :=
  if frames > 256 then 256 else frames

/-- External calls into the engine, for reasoning about call sequences. -/
inductive moog_event
  | NoteOn (note : ℤ) (velocity : ℚ)
  | NoteOff (note : ℤ)
  | Reset
  | AllNotesOff
  | PitchBendEv (bend : ℚ)
  | ModWheelEv (amount : ℚ)
  | RenderStep (frames : ℕ)
  deriving DecidableEq, Repr

/-- Dispatch of one external call. -/
def apply_event (sinq : ℚ → ℚ) (fpow : ℚ → ℚ → ℚ) (e : moog_engine_t) :
    moog_event → moog_engine_t
  | .NoteOn n v => moog_engine_note_on e n v
  | .NoteOff n => moog_engine_note_off e n
  | .Reset => moog_engine_reset e
  | .AllNotesOff => moog_engine_all_notes_off e
  | .PitchBendEv b => moog_engine_pitch_bend e b
  | .ModWheelEv a => moog_engine_mod_wheel e a
  | .RenderStep frames => (render_sample sinq fpow frames e).1

/-- Run a sequence of external calls left to right. -/
def run_events (sinq : ℚ → ℚ) (fpow : ℚ → ℚ → ℚ) (e : moog_engine_t) :
    List moog_event → moog_engine_t
  | [] => e
  | ev :: rest => run_events sinq fpow (apply_event sinq fpow e ev) rest

/-- One call does not press a note already on the key stack. -/
def is_fresh (e : moog_engine_t) : moog_event → Bool
  | .NoteOn n _ => decide (n ∉ e.key_stack)
  | _ => true

/-- A call sequence in which every NoteOn is for a note not currently on
the key stack of the engine state at which it arrives. -/
def fresh_note_ons (sinq : ℚ → ℚ) (fpow : ℚ → ℚ → ℚ) (e : moog_engine_t) :
    List moog_event → Bool
  | [] => true
  | ev :: rest =>
    is_fresh e ev && fresh_note_ons sinq fpow (apply_event sinq fpow e ev) rest

/-- The amp envelope variables of an engine, as passed by
moog_engine_render to envelope_process. -/
def amp_vars (e : moog_engine_t) : env_vars_t :=
  ⟨e.amp_env_state, e.amp_env_level, e.amp_env_attack_level,
   e.amp_env_release_level, e.amp_env_counter⟩

/-- The filter envelope variables of an engine. -/
def filt_vars (e : moog_engine_t) : env_vars_t :=
  ⟨e.filt_env_state, e.filt_env_level, e.filt_env_attack_level,
   e.filt_env_release_level, e.filt_env_counter⟩

/-- Envelope variable invariant: level and both anchors lie in the unit
interval, the counter is nonnegative, and the Off state carries level
zero. -/
def env_vars_ok (v : env_vars_t) : Prop :=
  0 ≤ v.level ∧ v.level ≤ 1 ∧ 0 ≤ v.attack_level ∧ v.attack_level ≤ 1 ∧
  0 ≤ v.release_level ∧ v.release_level ≤ 1 ∧ 0 ≤ v.counter ∧
  (v.state = .ENV_OFF → v.level = 0)

/-- Both engine envelopes satisfy the variable invariant. -/
def engine_env_ok (e : moog_engine_t) : Prop :=
  env_vars_ok (amp_vars e) ∧ env_vars_ok (filt_vars e)

/-- The envelope parameters are normalized and the sample rate positive. -/
def env_params_ok (e : moog_engine_t) : Prop :=
  0 < e.sample_rate ∧
  0 ≤ e.amp_attack ∧ e.amp_attack ≤ 1 ∧
  0 ≤ e.amp_decay ∧ e.amp_decay ≤ 1 ∧
  0 ≤ e.amp_sustain ∧ e.amp_sustain ≤ 1 ∧
  0 ≤ e.amp_release ∧ e.amp_release ≤ 1 ∧
  0 ≤ e.filt_attack ∧ e.filt_attack ≤ 1 ∧
  0 ≤ e.filt_decay ∧ e.filt_decay ≤ 1 ∧
  0 ≤ e.filt_sustain ∧ e.filt_sustain ≤ 1 ∧
  0 ≤ e.filt_release ∧ e.filt_release ≤ 1

/-- Per-stage magnitude bounds on the ladder taps, geometric in the
coefficient f, with the clamped final tap bounded by 4. -/
def filter_taps_bounded (f : ℚ) (s : filter_taps_t) : Prop :=
  |s.b0| ≤ 175065/100000 * f ^ 4 ∧
  |s.b1| ≤ 13/10 * (175065/100000) * f ^ 3 ∧
  |s.b2| ≤ 169/100 * (175065/100000) * f ^ 2 ∧
  |s.b3| ≤ 2197/1000 * (175065/100000) * f ∧
  |s.b4| ≤ 4

/-- Per-oscillator effective period computation of the render loop,
lines 469 to 493 of moog_engine.c, over the reals with libm pow as the
exact real power. -/
noncomputable def osc_effective_period (current_period : ℝ) (range : ℤ)
    (osc2_detune osc3_detune osc4_detune : ℝ) (osc : Fin 4) : ℝ :=
  let p := current_period
  let p := if range ≠ 0 then p * (2:ℝ) ^ (-(range:ℝ)) else p
  let p := if osc = 1 ∧ |osc2_detune| > 1/1000 then
      p * (2:ℝ) ^ (-((osc2_detune - 1/2) * 100) / 1200) else p
  let p := if osc = 2 ∧ |osc3_detune| > 1/1000 then
      p * (2:ℝ) ^ (-((osc3_detune - 1/2) * 100) / 1200) else p
  let p := if osc = 3 ∧ |osc4_detune - 1/2| > 1/1000 then
      p * (2:ℝ) ^ (-((osc4_detune - 1/2) * 100) / 1200) else p
  if p < 2 then 2 else p

/-- Modelled from the spec words of C6: effective period equals base
period times 2 to the minus rangeOffset times 2 to the minus detuneCents
over 1200, detune applying to oscillators 2 to 4 with detuneCents equal
to (detune minus 0.5) times 100, clamped to a minimum of 2 samples. -/
noncomputable def spec_effective_period (base : ℝ) (range : ℤ) (d : ℝ)
    (osc : Fin 4) : ℝ :=
  max 2 (base * (2:ℝ) ^ (-(range:ℝ)) *
    (if osc = 0 then 1 else (2:ℝ) ^ (-((d - 1/2) * 100) / 1200)))

/- Field lemmas for the event handlers: how each handler acts on single
fields, proved by pushing the projection through the branches. -/

/-- Key stack effect of note on: the note is appended when the stack has
room, independently of the gate and glide branches. -/
theorem note_on_key_stack (e : moog_engine_t) (n : ℤ) (v : ℚ) :
    (moog_engine_note_on e n v).key_stack =
      if e.key_stack.length < MOOG_MAX_KEYS then e.key_stack ++ [n]
      else e.key_stack := by
  simp only [moog_engine_note_on, apply_ite (moog_engine_t.key_stack), ite_self]

/-- Key stack effect of note off: the first occurrence of the note is
removed, independently of the retarget and release branches. -/
theorem note_off_key_stack (e : moog_engine_t) (n : ℤ) :
    (moog_engine_note_off e n).key_stack = remove_first n e.key_stack := by
  simp only [moog_engine_note_off, apply_ite (moog_engine_t.key_stack), ite_self]

/-- Current note effect of note on. -/
theorem note_on_current_note (e : moog_engine_t) (n : ℤ) (v : ℚ) :
    (moog_engine_note_on e n v).current_note = n := by
  simp only [moog_engine_note_on, apply_ite (moog_engine_t.current_note), ite_self]

/-- Velocity effect of note on. -/
theorem note_on_velocity (e : moog_engine_t) (n : ℤ) (v : ℚ) :
    (moog_engine_note_on e n v).velocity = v := by
  simp only [moog_engine_note_on, apply_ite (moog_engine_t.velocity), ite_self]

/-- Note on always leaves the gate on. -/
theorem note_on_gate_on (e : moog_engine_t) (n : ℤ) (v : ℚ) :
    (moog_engine_note_on e n v).gate_on = true := by
  simp only [moog_engine_note_on, apply_ite (moog_engine_t.gate_on)]
  split <;> split <;> simp_all

/-- Current note effect of note off: the last remaining stack entry when
one exists, otherwise unchanged. -/
theorem note_off_current_note (e : moog_engine_t) (n : ℤ) :
    (moog_engine_note_off e n).current_note =
      if (remove_first n e.key_stack).length > 0 then
        (remove_first n e.key_stack).getLastD 0
      else e.current_note := by
  simp only [moog_engine_note_off, apply_ite (moog_engine_t.current_note), ite_self]

/-- A render step never touches the key stack. -/
theorem render_sample_key_stack (sinq : ℚ → ℚ) (fpow : ℚ → ℚ → ℚ)
    (frames : ℕ) (e : moog_engine_t) :
    (render_sample sinq fpow frames e).1.key_stack = e.key_stack := rfl

/-- Removing the first occurrence coincides with List.erase. -/
theorem remove_first_eq_erase (n : ℤ) (l : List ℤ) :
    remove_first n l = l.erase n := by
  induction l with
  | nil => rfl
  | cons x xs ih =>
    rw [remove_first, List.erase_cons, ih]
    by_cases h : x = n <;> simp [h]

/-- Freshness condition on note ons yields a duplicate-free key stack at
every point of a call sequence. -/
theorem run_events_nodup (sinq : ℚ → ℚ) (fpow : ℚ → ℚ → ℚ) :
    ∀ (evs : List moog_event) (e : moog_engine_t),
      e.key_stack.Nodup → fresh_note_ons sinq fpow e evs = true →
      (run_events sinq fpow e evs).key_stack.Nodup := by
  intro evs
  induction evs with
  | nil => intro e h _; exact h
  | cons ev rest ih =>
    intro e h hfresh
    cases ev with
    | NoteOn n v =>
      rw [fresh_note_ons, Bool.and_eq_true] at hfresh
      have hn : n ∉ e.key_stack := by simpa [is_fresh] using hfresh.1
      refine ih _ ?_ hfresh.2
      simp only [apply_event, note_on_key_stack]
      split
      · simp [List.nodup_append, h, hn]
      · exact h
    | NoteOff n =>
      rw [fresh_note_ons, Bool.and_eq_true] at hfresh
      refine ih _ ?_ hfresh.2
      simp only [apply_event, note_off_key_stack, remove_first_eq_erase]
      exact (List.erase_sublist ..).nodup h
    | Reset =>
      rw [fresh_note_ons, Bool.and_eq_true] at hfresh
      refine ih _ ?_ hfresh.2
      simp [apply_event, moog_engine_reset]
    | AllNotesOff =>
      rw [fresh_note_ons, Bool.and_eq_true] at hfresh
      refine ih _ ?_ hfresh.2
      simp [apply_event, moog_engine_all_notes_off]
    | PitchBendEv b =>
      rw [fresh_note_ons, Bool.and_eq_true] at hfresh
      exact ih _ h hfresh.2
    | ModWheelEv a =>
      rw [fresh_note_ons, Bool.and_eq_true] at hfresh
      exact ih _ h hfresh.2
    | RenderStep frames =>
      rw [fresh_note_ons, Bool.and_eq_true] at hfresh
      refine ih _ ?_ hfresh.2
      simpa [apply_event, render_sample_key_stack] using h

/-- C1 (amended): under call sequences whose note ons never press a note
already held, the key stack stays duplicate free, and note off removes the
first occurrence of the released note, keeps every other note, and
preserves the relative order of the remaining entries (the new stack is a
sublist of the old one). -/
theorem c1_key_stack_invariant (sinq : ℚ → ℚ) (fpow : ℚ → ℚ → ℚ)
    (evs : List moog_event)
    (hfresh : fresh_note_ons sinq fpow moog_engine_init evs = true) :
    (run_events sinq fpow moog_engine_init evs).key_stack.Nodup ∧
    ∀ n : ℤ,
      ((moog_engine_note_off (run_events sinq fpow moog_engine_init evs)
          n).key_stack).Sublist
        (run_events sinq fpow moog_engine_init evs).key_stack ∧
      n ∉ (moog_engine_note_off (run_events sinq fpow moog_engine_init evs)
          n).key_stack ∧
      ∀ m : ℤ, m ≠ n →
        (m ∈ (moog_engine_note_off (run_events sinq fpow moog_engine_init evs)
            n).key_stack ↔
          m ∈ (run_events sinq fpow moog_engine_init evs).key_stack) := by
  have hnd : (run_events sinq fpow moog_engine_init evs).key_stack.Nodup := by
    refine run_events_nodup sinq fpow evs moog_engine_init ?_ hfresh
    simp [moog_engine_init]
  refine ⟨hnd, fun n => ?_⟩
  rw [note_off_key_stack, remove_first_eq_erase]
  exact ⟨List.erase_sublist .., hnd.not_mem_erase,
    fun m hm => List.mem_erase_of_ne hm⟩

/-- C1 counterexample: after initialize, two NoteOn 60 calls in a row put
the note 60 on the key stack twice, so the stack does not contain each
note number at most once. -/
theorem c1_duplicate_note_counterexample :
    ¬ ((run_events (fun _ => 0) (fun _ _ => 0) moog_engine_init
        [.NoteOn 60 1, .NoteOn 60 1]).key_stack.count 60 ≤ 1) := by
  have h : (run_events (fun _ => 0) (fun _ _ => 0) moog_engine_init
      [.NoteOn 60 1, .NoteOn 60 1]).key_stack = [60, 60] := by
    simp [run_events, apply_event, note_on_key_stack, moog_engine_init,
      MOOG_MAX_KEYS]
  rw [h]
  decide

/-- C1 witness: the amended invariant at the concrete fresh sequence
NoteOn 60, NoteOff 60, NoteOn 64. -/
theorem c1_key_stack_invariant_witness :
    (run_events (fun _ => 0) (fun _ _ => 0) moog_engine_init
      [.NoteOn 60 1, .NoteOff 60, .NoteOn 64 1]).key_stack.Nodup ∧
    ∀ n : ℤ,
      ((moog_engine_note_off (run_events (fun _ => 0) (fun _ _ => 0)
          moog_engine_init [.NoteOn 60 1, .NoteOff 60, .NoteOn 64 1])
          n).key_stack).Sublist
        (run_events (fun _ => 0) (fun _ _ => 0) moog_engine_init
          [.NoteOn 60 1, .NoteOff 60, .NoteOn 64 1]).key_stack ∧
      n ∉ (moog_engine_note_off (run_events (fun _ => 0) (fun _ _ => 0)
          moog_engine_init [.NoteOn 60 1, .NoteOff 60, .NoteOn 64 1])
          n).key_stack ∧
      ∀ m : ℤ, m ≠ n →
        (m ∈ (moog_engine_note_off (run_events (fun _ => 0) (fun _ _ => 0)
            moog_engine_init [.NoteOn 60 1, .NoteOff 60, .NoteOn 64 1])
            n).key_stack ↔
          m ∈ (run_events (fun _ => 0) (fun _ _ => 0) moog_engine_init
            [.NoteOn 60 1, .NoteOff 60, .NoteOn 64 1]).key_stack) :=
  c1_key_stack_invariant (fun _ => 0) (fun _ _ => 0)
    [.NoteOn 60 1, .NoteOff 60, .NoteOn 64 1]
    (by simp [fresh_note_ons, is_fresh, apply_event, note_on_key_stack,
      note_off_key_stack, remove_first, moog_engine_init, MOOG_MAX_KEYS])

/-- C5 (confirmed): from an initialized engine, pressing 60, 64, 67 and
releasing 64 leaves the key stack at 60, 67 and the sounding note 67. -/
theorem c5_last_note_priority (sinq : ℚ → ℚ) (fpow : ℚ → ℚ → ℚ) :
    (run_events sinq fpow moog_engine_init
      [.NoteOn 60 1, .NoteOn 64 1, .NoteOn 67 1, .NoteOff 64]).key_stack
      = [60, 67] ∧
    (run_events sinq fpow moog_engine_init
      [.NoteOn 60 1, .NoteOn 64 1, .NoteOn 67 1, .NoteOff 64]).current_note
      = 67 := by
  have hks : (run_events sinq fpow moog_engine_init
      [.NoteOn 60 1, .NoteOn 64 1, .NoteOn 67 1]).key_stack = [60, 64, 67] := by
    simp [run_events, apply_event, note_on_key_stack, moog_engine_init,
      MOOG_MAX_KEYS]
  constructor
  · simp [run_events, apply_event] at hks ⊢
    rw [note_off_key_stack, hks]
    simp [remove_first]
  · simp [run_events, apply_event] at hks ⊢
    rw [note_off_current_note, hks]
    simp [remove_first, List.getLastD]

/-- Render loop output length: the loop writes exactly one sample per
iteration. -/
theorem render_go_length (sinq : ℚ → ℚ) (fpow : ℚ → ℚ → ℚ) (frames : ℕ) :
    ∀ (n : ℕ) (e : moog_engine_t),
      (render_go sinq fpow frames e n).2.length = n := by
  intro n
  induction n with
  | zero => intro e; rfl
  | succ k ih =>
    intro e
    simp [render_go, ih]

/-- C8 (confirmed): render never fails; the plugin entry truncates an
over-large frame request to 256, and the engine render writes exactly one
output sample per requested frame, so a request of frameCount frames
yields min frameCount 256 samples through the plugin entry and exactly
frameCount samples at the engine level for any in-bound request. -/
theorem c8_render_block_bound (sinq : ℚ → ℚ) (fpow : ℚ → ℚ → ℚ)
    (e : moog_engine_t) (frames : ℕ) :
    (moog_engine_render sinq fpow e (v2_render_frames frames)).2.length
      = min frames 256 ∧
    (moog_engine_render sinq fpow e frames).2.length = frames := by
  constructor
  · rw [moog_engine_render, render_go_length, v2_render_frames]
    split <;> omega
  · rw [moog_engine_render, render_go_length]

/-- Sounding period effect of note on: kept during a legato glide, set to
the target otherwise. -/
theorem note_on_period (e : moog_engine_t) (n : ℤ) (v : ℚ) :
    (moog_engine_note_on e n v).period =
      if e.gate_on = true ∧ e.glide > 1/1000 then e.period
      else target_period e n := by
  simp only [moog_engine_note_on, apply_ite (moog_engine_t.period), ite_self]

/-- Glide target effect of note on: always the target of the new note. -/
theorem note_on_glide_period (e : moog_engine_t) (n : ℤ) (v : ℚ) :
    (moog_engine_note_on e n v).glide_period = target_period e n := by
  simp only [moog_engine_note_on, apply_ite (moog_engine_t.glide_period), ite_self]

/-- Note on leaves the glide parameter unchanged. -/
theorem note_on_glide (e : moog_engine_t) (n : ℤ) (v : ℚ) :
    (moog_engine_note_on e n v).glide = e.glide := by
  simp only [moog_engine_note_on, apply_ite (moog_engine_t.glide), ite_self]

/-- Sounding period effect of note off. -/
theorem note_off_period (e : moog_engine_t) (n : ℤ) :
    (moog_engine_note_off e n).period =
      if (remove_first n e.key_stack).length > 0 then
        if e.glide > 1/1000 then e.period
        else target_period e ((remove_first n e.key_stack).getLastD 0)
      else e.period := by
  simp only [moog_engine_note_off, apply_ite (moog_engine_t.period), ite_self]
  simp [target_period, effective_note]

/-- Glide target effect of note off. -/
theorem note_off_glide_period (e : moog_engine_t) (n : ℤ) :
    (moog_engine_note_off e n).glide_period =
      if (remove_first n e.key_stack).length > 0 then
        target_period e ((remove_first n e.key_stack).getLastD 0)
      else e.glide_period := by
  simp only [moog_engine_note_off, apply_ite (moog_engine_t.glide_period), ite_self]
  simp [target_period, effective_note]

/-- With the gate already on, note on only writes the key stack, pitch
periods, current note and velocity. -/
theorem note_on_gate_true_eq (e : moog_engine_t) (n : ℤ) (v : ℚ)
    (h : e.gate_on = true) :
    moog_engine_note_on e n v =
      { e with
        key_stack := if e.key_stack.length < MOOG_MAX_KEYS
          then e.key_stack ++ [n] else e.key_stack
        period := (moog_engine_note_on e n v).period
        glide_period := target_period e n
        current_note := n
        velocity := v } := by
  rw [note_on_period]
  by_cases hg : e.glide > 1/1000
  · simp only [moog_engine_note_on, h, true_and, if_pos hg, if_pos (And.intro rfl hg)]
    simp [hg]
  · simp only [moog_engine_note_on, h, true_and, if_neg hg]
    simp [hg]

/-- With the gate off, note on writes pitch immediately and triggers both
envelopes from their current levels. -/
theorem note_on_gate_false_eq (e : moog_engine_t) (n : ℤ) (v : ℚ)
    (h : e.gate_on = false) :
    moog_engine_note_on e n v =
      { e with
        key_stack := if e.key_stack.length < MOOG_MAX_KEYS
          then e.key_stack ++ [n] else e.key_stack
        period := target_period e n
        glide_period := target_period e n
        current_note := n
        velocity := v
        gate_on := true
        amp_env_attack_level := e.amp_env_level
        amp_env_state := .ENV_ATTACK
        amp_env_counter := 0
        filt_env_attack_level := e.filt_env_level
        filt_env_state := .ENV_ATTACK
        filt_env_counter := 0 } := by
  simp only [moog_engine_note_on, h]
  simp

/-- The tuning ratio constant of note_to_hz is above one. -/
theorem one_lt_note_ratio : (1 : ℚ) < 10594630943593 / 10000000000000 := by
  norm_num

/-- Frequencies of the note map are positive. -/
theorem note_to_hz_pos (n : ℤ) : 0 < note_to_hz n := by
  unfold note_to_hz
  have := zpow_pos (a := (10594630943593 / 10000000000000 : ℚ)) (by norm_num) n
  positivity

/-- The note map is strictly increasing. -/
theorem note_to_hz_lt (a b : ℤ) (h : a < b) : note_to_hz a < note_to_hz b := by
  unfold note_to_hz
  have hr := zpow_lt_zpow_right₀ one_lt_note_ratio h
  have hc : (0:ℚ) < 81758 / 10000 := by norm_num
  exact mul_lt_mul_of_pos_left hr hc

/-- Notes at or above zero map to frequencies at or above one hertz. -/
theorem one_le_note_to_hz (n : ℤ) (h : 0 ≤ n) : 1 ≤ note_to_hz n := by
  unfold note_to_hz
  have hr : (1:ℚ) ≤ (10594630943593 / 10000000000000 : ℚ) ^ n :=
    one_le_zpow₀ (le_of_lt one_lt_note_ratio) h
  nlinarith

/-- Distinct frequencies at or above one hertz give distinct periods. -/
theorem hz_to_period_ne (h1 h2 : ℚ) (sr : ℚ) (hsr : 0 < sr)
    (ha : 1 ≤ h1) (hb : 1 ≤ h2) (hne : h1 ≠ h2) :
    hz_to_period h1 sr ≠ hz_to_period h2 sr := by
  unfold hz_to_period
  rw [if_neg (by linarith), if_neg (by linarith)]
  intro hc
  apply hne
  field_simp at hc
  have h1p : 0 < h1 := by linarith
  have h2p : 0 < h2 := by linarith
  rcases hc with hc | hc
  · exact hc.symm
  · linarith

/-- C4 (amended): with the gate already on, note on retriggers nothing:
both envelope states, counters, levels and anchor levels and every other
field are untouched; only the pitch periods, the current note, the
velocity, and the key stack (the note is appended when there is room)
change. -/
theorem c4_legato_no_retrigger (e : moog_engine_t) (n : ℤ) (v : ℚ)
    (h : e.gate_on = true) :
    (∃ p gp : ℚ, moog_engine_note_on e n v =
      { e with
        key_stack := if e.key_stack.length < MOOG_MAX_KEYS
          then e.key_stack ++ [n] else e.key_stack
        period := p
        glide_period := gp
        current_note := n
        velocity := v }) ∧
    (moog_engine_note_on e n v).amp_env_state = e.amp_env_state ∧
    (moog_engine_note_on e n v).amp_env_counter = e.amp_env_counter ∧
    (moog_engine_note_on e n v).amp_env_level = e.amp_env_level ∧
    (moog_engine_note_on e n v).amp_env_attack_level = e.amp_env_attack_level ∧
    (moog_engine_note_on e n v).amp_env_release_level = e.amp_env_release_level ∧
    (moog_engine_note_on e n v).filt_env_state = e.filt_env_state ∧
    (moog_engine_note_on e n v).filt_env_counter = e.filt_env_counter ∧
    (moog_engine_note_on e n v).filt_env_level = e.filt_env_level ∧
    (moog_engine_note_on e n v).filt_env_attack_level = e.filt_env_attack_level ∧
    (moog_engine_note_on e n v).filt_env_release_level = e.filt_env_release_level ∧
    (moog_engine_note_on e n v).gate_on = e.gate_on := by
  have heq := note_on_gate_true_eq e n v h
  refine ⟨⟨(moog_engine_note_on e n v).period, target_period e n, heq⟩,
    ?_, ?_, ?_, ?_, ?_, ?_, ?_, ?_, ?_, ?_, ?_⟩ <;> rw [heq]

/-- C4 counterexample: with the gate on, a second note on changes more
than pitch, note and velocity: the key stack changes as well. -/
theorem c4_key_stack_changes_counterexample :
    (moog_engine_note_on moog_engine_init 60 1).gate_on = true ∧
    (moog_engine_note_on (moog_engine_note_on moog_engine_init 60 1) 64
        1).key_stack ≠
      (moog_engine_note_on moog_engine_init 60 1).key_stack := by
  refine ⟨note_on_gate_on moog_engine_init 60 1, ?_⟩
  rw [note_on_key_stack, note_on_key_stack]
  simp [moog_engine_init, MOOG_MAX_KEYS]

/-- C4 witness: the amended frame condition at a concrete engine with the
gate on. -/
theorem c4_legato_no_retrigger_witness :
    (∃ p gp : ℚ, moog_engine_note_on (moog_engine_note_on moog_engine_init 60 1) 64 1 =
      { moog_engine_note_on moog_engine_init 60 1 with
        key_stack := if (moog_engine_note_on moog_engine_init 60
            1).key_stack.length < MOOG_MAX_KEYS
          then (moog_engine_note_on moog_engine_init 60 1).key_stack ++ [64]
          else (moog_engine_note_on moog_engine_init 60 1).key_stack
        period := p
        glide_period := gp
        current_note := 64
        velocity := 1 }) ∧
    (moog_engine_note_on (moog_engine_note_on moog_engine_init 60 1) 64
        1).amp_env_state =
      (moog_engine_note_on moog_engine_init 60 1).amp_env_state ∧
    (moog_engine_note_on (moog_engine_note_on moog_engine_init 60 1) 64
        1).amp_env_counter =
      (moog_engine_note_on moog_engine_init 60 1).amp_env_counter ∧
    (moog_engine_note_on (moog_engine_note_on moog_engine_init 60 1) 64
        1).amp_env_level =
      (moog_engine_note_on moog_engine_init 60 1).amp_env_level ∧
    (moog_engine_note_on (moog_engine_note_on moog_engine_init 60 1) 64
        1).amp_env_attack_level =
      (moog_engine_note_on moog_engine_init 60 1).amp_env_attack_level ∧
    (moog_engine_note_on (moog_engine_note_on moog_engine_init 60 1) 64
        1).amp_env_release_level =
      (moog_engine_note_on moog_engine_init 60 1).amp_env_release_level ∧
    (moog_engine_note_on (moog_engine_note_on moog_engine_init 60 1) 64
        1).filt_env_state =
      (moog_engine_note_on moog_engine_init 60 1).filt_env_state ∧
    (moog_engine_note_on (moog_engine_note_on moog_engine_init 60 1) 64
        1).filt_env_counter =
      (moog_engine_note_on moog_engine_init 60 1).filt_env_counter ∧
    (moog_engine_note_on (moog_engine_note_on moog_engine_init 60 1) 64
        1).filt_env_level =
      (moog_engine_note_on moog_engine_init 60 1).filt_env_level ∧
    (moog_engine_note_on (moog_engine_note_on moog_engine_init 60 1) 64
        1).filt_env_attack_level =
      (moog_engine_note_on moog_engine_init 60 1).filt_env_attack_level ∧
    (moog_engine_note_on (moog_engine_note_on moog_engine_init 60 1) 64
        1).filt_env_release_level =
      (moog_engine_note_on moog_engine_init 60 1).filt_env_release_level ∧
    (moog_engine_note_on (moog_engine_note_on moog_engine_init 60 1) 64
        1).gate_on =
      (moog_engine_note_on moog_engine_init 60 1).gate_on :=
  c4_legato_no_retrigger (moog_engine_note_on moog_engine_init 60 1) 64 1
    (note_on_gate_on moog_engine_init 60 1)

/-- C7 (amended): pitch changes go through the glide target only when the
glide parameter exceeds 0.001 and, for note on, the gate is already on; a
note on with the gate off, and any of these events with glide at or below
the threshold, update the sounding period immediately. -/
theorem c7_glide_target_behavior (e : moog_engine_t) (n : ℤ) (v : ℚ) :
    (e.gate_on = true → e.glide > 1/1000 →
      (moog_engine_note_on e n v).period = e.period ∧
      (moog_engine_note_on e n v).glide_period = target_period e n) ∧
    (e.gate_on = false ∨ ¬ e.glide > 1/1000 →
      (moog_engine_note_on e n v).period = target_period e n ∧
      (moog_engine_note_on e n v).glide_period = target_period e n) ∧
    ((remove_first n e.key_stack).length > 0 → e.glide > 1/1000 →
      (moog_engine_note_off e n).period = e.period ∧
      (moog_engine_note_off e n).glide_period =
        target_period e ((remove_first n e.key_stack).getLastD 0)) ∧
    ((remove_first n e.key_stack).length > 0 → ¬ e.glide > 1/1000 →
      (moog_engine_note_off e n).period =
        target_period e ((remove_first n e.key_stack).getLastD 0) ∧
      (moog_engine_note_off e n).glide_period =
        target_period e ((remove_first n e.key_stack).getLastD 0)) := by
  refine ⟨fun hg hgl => ?_, fun hcase => ?_, fun hne hgl => ?_, fun hne hgl => ?_⟩
  · rw [note_on_period, note_on_glide_period, if_pos ⟨hg, hgl⟩]
    exact ⟨rfl, rfl⟩
  · rw [note_on_period, note_on_glide_period]
    rcases hcase with hg | hgl
    · rw [if_neg (by simp [hg])]
      exact ⟨rfl, rfl⟩
    · rw [if_neg (fun hc => hgl hc.2)]
      exact ⟨rfl, rfl⟩
  · rw [note_off_period, note_off_glide_period, if_pos hne, if_pos hne,
      if_pos hgl]
    exact ⟨rfl, rfl⟩
  · rw [note_off_period, note_off_glide_period, if_pos hne, if_pos hne,
      if_neg hgl]
    exact ⟨rfl, rfl⟩

/-- C7 counterexample: with glide well above the threshold but the gate
off, a note on changes the sounding period immediately instead of leaving
it unchanged. -/
theorem c7_fresh_note_immediate_counterexample :
    ({ moog_engine_init with glide := 1/2 } : moog_engine_t).glide > 1/1000 ∧
    (moog_engine_note_on { moog_engine_init with glide := 1/2 } 64 1).period ≠
      ({ moog_engine_init with glide := 1/2 } : moog_engine_t).period := by
  constructor
  · norm_num
  · rw [note_on_period, if_neg (by simp [moog_engine_init])]
    have ht : target_period ({ moog_engine_init with glide := 1/2 }) 64 =
        hz_to_period (note_to_hz 64) MOOG_SAMPLE_RATE := by
      simp [target_period, effective_note, moog_engine_init]
    have hp : ({ moog_engine_init with glide := 1/2 } : moog_engine_t).period =
        hz_to_period (note_to_hz 60) MOOG_SAMPLE_RATE := rfl
    rw [ht, hp]
    exact hz_to_period_ne (note_to_hz 64) (note_to_hz 60) MOOG_SAMPLE_RATE
      (by norm_num [MOOG_SAMPLE_RATE])
      (one_le_note_to_hz 64 (by norm_num)) (one_le_note_to_hz 60 (by norm_num))
      (ne_of_gt (note_to_hz_lt 60 64 (by norm_num)))

/-- C7 witness: the four branch behaviors at concrete engines. -/
theorem c7_glide_target_behavior_witness :
    ((moog_engine_note_on { moog_engine_note_on moog_engine_init 60 1 with
        glide := 1/2 } 64 1).period =
      ({ moog_engine_note_on moog_engine_init 60 1 with
        glide := 1/2 } : moog_engine_t).period ∧
     (moog_engine_note_on { moog_engine_note_on moog_engine_init 60 1 with
        glide := 1/2 } 64 1).glide_period =
      target_period { moog_engine_note_on moog_engine_init 60 1 with
        glide := 1/2 } 64) ∧
    ((moog_engine_note_on moog_engine_init 64 1).period =
      target_period moog_engine_init 64 ∧
     (moog_engine_note_on moog_engine_init 64 1).glide_period =
      target_period moog_engine_init 64) :=
  ⟨(c7_glide_target_behavior
      { moog_engine_note_on moog_engine_init 60 1 with glide := 1/2 } 64 1).1
    (note_on_gate_on moog_engine_init 60 1) (by norm_num),
   (c7_glide_target_behavior moog_engine_init 64 1).2.1 (Or.inl rfl)⟩

/-- C10 (confirmed): a note on against a full key stack leaves the stack
unchanged, yet still updates current note, velocity and pitch targets, and
still triggers both envelopes when the gate was off; the note is never
recorded, so it cannot later be matched by a note off. -/
theorem c10_full_stack_note_on (e : moog_engine_t) (n : ℤ) (v : ℚ)
    (hfull : e.key_stack.length = MOOG_MAX_KEYS) :
    (moog_engine_note_on e n v).key_stack = e.key_stack ∧
    (moog_engine_note_on e n v).current_note = n ∧
    (moog_engine_note_on e n v).velocity = v ∧
    (moog_engine_note_on e n v).glide_period = target_period e n ∧
    (moog_engine_note_on e n v).period =
      (if e.gate_on = true ∧ e.glide > 1/1000 then e.period
       else target_period e n) ∧
    (e.gate_on = false →
      (moog_engine_note_on e n v).gate_on = true ∧
      (moog_engine_note_on e n v).amp_env_state = .ENV_ATTACK ∧
      (moog_engine_note_on e n v).amp_env_counter = 0 ∧
      (moog_engine_note_on e n v).amp_env_attack_level = e.amp_env_level ∧
      (moog_engine_note_on e n v).filt_env_state = .ENV_ATTACK ∧
      (moog_engine_note_on e n v).filt_env_counter = 0 ∧
      (moog_engine_note_on e n v).filt_env_attack_level = e.filt_env_level) ∧
    (n ∉ e.key_stack → n ∉ (moog_engine_note_on e n v).key_stack) := by
  have hks : (moog_engine_note_on e n v).key_stack = e.key_stack := by
    rw [note_on_key_stack, if_neg (by omega)]
  refine ⟨hks, note_on_current_note e n v, note_on_velocity e n v,
    note_on_glide_period e n v, note_on_period e n v, fun hg => ?_,
    fun hmem => by rw [hks]; exact hmem⟩
  rw [note_on_gate_false_eq e n v hg]
  exact ⟨rfl, rfl, rfl, rfl, rfl, rfl, rfl⟩

/-- C10 witness: a sixteen-entry stack, a note on for note 77 with the
gate off. -/
theorem c10_full_stack_note_on_witness :
    (moog_engine_note_on { moog_engine_init with
        key_stack := [0, 1, 2, 3, 4, 5, 6, 7, 8, 9, 10, 11, 12, 13, 14, 15] }
        77 1).key_stack =
      ({ moog_engine_init with
        key_stack := [0, 1, 2, 3, 4, 5, 6, 7, 8, 9, 10, 11, 12, 13, 14, 15] } :
        moog_engine_t).key_stack ∧
    (moog_engine_note_on { moog_engine_init with
        key_stack := [0, 1, 2, 3, 4, 5, 6, 7, 8, 9, 10, 11, 12, 13, 14, 15] }
        77 1).current_note = 77 ∧
    (moog_engine_note_on { moog_engine_init with
        key_stack := [0, 1, 2, 3, 4, 5, 6, 7, 8, 9, 10, 11, 12, 13, 14, 15] }
        77 1).velocity = 1 ∧
    (moog_engine_note_on { moog_engine_init with
        key_stack := [0, 1, 2, 3, 4, 5, 6, 7, 8, 9, 10, 11, 12, 13, 14, 15] }
        77 1).glide_period =
      target_period { moog_engine_init with
        key_stack := [0, 1, 2, 3, 4, 5, 6, 7, 8, 9, 10, 11, 12, 13, 14, 15] }
        77 ∧
    (moog_engine_note_on { moog_engine_init with
        key_stack := [0, 1, 2, 3, 4, 5, 6, 7, 8, 9, 10, 11, 12, 13, 14, 15] }
        77 1).period =
      (if ({ moog_engine_init with
          key_stack := [0, 1, 2, 3, 4, 5, 6, 7, 8, 9, 10, 11, 12, 13, 14, 15] } :
          moog_engine_t).gate_on = true ∧
        ({ moog_engine_init with
          key_stack := [0, 1, 2, 3, 4, 5, 6, 7, 8, 9, 10, 11, 12, 13, 14, 15] } :
          moog_engine_t).glide > 1/1000 then
        ({ moog_engine_init with
          key_stack := [0, 1, 2, 3, 4, 5, 6, 7, 8, 9, 10, 11, 12, 13, 14, 15] } :
          moog_engine_t).period
       else target_period { moog_engine_init with
          key_stack := [0, 1, 2, 3, 4, 5, 6, 7, 8, 9, 10, 11, 12, 13, 14, 15] }
          77) ∧
    (({ moog_engine_init with
        key_stack := [0, 1, 2, 3, 4, 5, 6, 7, 8, 9, 10, 11, 12, 13, 14, 15] } :
        moog_engine_t).gate_on = false →
      (moog_engine_note_on { moog_engine_init with
          key_stack := [0, 1, 2, 3, 4, 5, 6, 7, 8, 9, 10, 11, 12, 13, 14, 15] }
          77 1).gate_on = true ∧
      (moog_engine_note_on { moog_engine_init with
          key_stack := [0, 1, 2, 3, 4, 5, 6, 7, 8, 9, 10, 11, 12, 13, 14, 15] }
          77 1).amp_env_state = .ENV_ATTACK ∧
      (moog_engine_note_on { moog_engine_init with
          key_stack := [0, 1, 2, 3, 4, 5, 6, 7, 8, 9, 10, 11, 12, 13, 14, 15] }
          77 1).amp_env_counter = 0 ∧
      (moog_engine_note_on { moog_engine_init with
          key_stack := [0, 1, 2, 3, 4, 5, 6, 7, 8, 9, 10, 11, 12, 13, 14, 15] }
          77 1).amp_env_attack_level =
        ({ moog_engine_init with
          key_stack := [0, 1, 2, 3, 4, 5, 6, 7, 8, 9, 10, 11, 12, 13, 14, 15] } :
          moog_engine_t).amp_env_level ∧
      (moog_engine_note_on { moog_engine_init with
          key_stack := [0, 1, 2, 3, 4, 5, 6, 7, 8, 9, 10, 11, 12, 13, 14, 15] }
          77 1).filt_env_state = .ENV_ATTACK ∧
      (moog_engine_note_on { moog_engine_init with
          key_stack := [0, 1, 2, 3, 4, 5, 6, 7, 8, 9, 10, 11, 12, 13, 14, 15] }
          77 1).filt_env_counter = 0 ∧
      (moog_engine_note_on { moog_engine_init with
          key_stack := [0, 1, 2, 3, 4, 5, 6, 7, 8, 9, 10, 11, 12, 13, 14, 15] }
          77 1).filt_env_attack_level =
        ({ moog_engine_init with
          key_stack := [0, 1, 2, 3, 4, 5, 6, 7, 8, 9, 10, 11, 12, 13, 14, 15] } :
          moog_engine_t).filt_env_level) ∧
    ((77 : ℤ) ∉ ({ moog_engine_init with
        key_stack := [0, 1, 2, 3, 4, 5, 6, 7, 8, 9, 10, 11, 12, 13, 14, 15] } :
        moog_engine_t).key_stack →
      (77 : ℤ) ∉ (moog_engine_note_on { moog_engine_init with
          key_stack := [0, 1, 2, 3, 4, 5, 6, 7, 8, 9, 10, 11, 12, 13, 14, 15] }
          77 1).key_stack) :=
  c10_full_stack_note_on
    { moog_engine_init with
      key_stack := [0, 1, 2, 3, 4, 5, 6, 7, 8, 9, 10, 11, 12, 13, 14, 15] }
    77 1 rfl

/-- Time mapping positivity: any normalized parameter gives a positive
sample count at a positive sample rate. -/
theorem param_to_time_pos (p sr : ℚ) (hsr : 0 < sr) :
    0 < param_to_time p sr := by
  unfold param_to_time
  nlinarith [mul_self_nonneg p]

/-- One envelope step preserves the variable invariant and never writes
the anchor levels. -/
theorem envelope_process_ok (v : env_vars_t) (a d s r sr : ℚ)
    (hs0 : 0 ≤ s) (hs1 : s ≤ 1) (hsr : 0 < sr) (hv : env_vars_ok v) :
    env_vars_ok (envelope_process v a d s r sr) ∧
    (envelope_process v a d s r sr).attack_level = v.attack_level ∧
    (envelope_process v a d s r sr).release_level = v.release_level := by
  obtain ⟨st, l, al, rl, c⟩ := v
  obtain ⟨hl0, hl1, ha0, ha1, hr0, hr1, hc0, hoff⟩ := hv
  dsimp only at hl0 hl1 ha0 ha1 hr0 hr1 hc0 hoff
  have htA := param_to_time_pos a sr hsr
  have htD := param_to_time_pos d sr hsr
  have htR := param_to_time_pos r sr hsr
  cases st with
  | ENV_OFF =>
    simp only [envelope_process]
    exact ⟨⟨le_refl 0, by norm_num, ha0, ha1, hr0, hr1, hc0, by simp⟩,
      trivial, trivial⟩
  | ENV_SUSTAIN =>
    simp only [envelope_process]
    exact ⟨⟨hs0, hs1, ha0, ha1, hr0, hr1, hc0, by simp⟩, trivial, trivial⟩
  | ENV_ATTACK =>
    simp only [envelope_process]
    split
    · exact ⟨⟨by norm_num, by norm_num, ha0, ha1, hr0, hr1, by norm_num,
        by simp⟩, rfl, rfl⟩
    · rename_i hp
      have hq0 : 0 ≤ c / param_to_time a sr := div_nonneg hc0 htA.le
      have hq1 : c / param_to_time a sr < 1 := lt_of_not_ge hp
      refine ⟨⟨?_, ?_, ha0, ha1, hr0, hr1, by simp; linarith, by simp⟩,
        rfl, rfl⟩
      · show 0 ≤ al + (1 - al) *
          (c / param_to_time a sr * (c / param_to_time a sr))
        nlinarith [mul_nonneg (sub_nonneg.mpr ha1)
          (mul_nonneg hq0 hq0)]
      · show al + (1 - al) *
          (c / param_to_time a sr * (c / param_to_time a sr)) ≤ 1
        have hqq : c / param_to_time a sr * (c / param_to_time a sr) ≤ 1 := by
          nlinarith
        nlinarith [mul_nonneg (sub_nonneg.mpr ha1) (sub_nonneg.mpr hqq)]
  | ENV_DECAY =>
    simp only [envelope_process]
    split
    · exact ⟨⟨hs0, hs1, ha0, ha1, hr0, hr1, by norm_num, by simp⟩, rfl, rfl⟩
    · rename_i hp
      have hq0 : 0 ≤ c / param_to_time d sr := div_nonneg hc0 htD.le
      have hq1 : c / param_to_time d sr < 1 := lt_of_not_ge hp
      refine ⟨⟨?_, ?_, ha0, ha1, hr0, hr1, by simp; linarith, by simp⟩,
        rfl, rfl⟩
      · show 0 ≤ s + (1 - s) * (1 - c / param_to_time d sr) *
          (1 - c / param_to_time d sr)
        nlinarith [mul_nonneg (sub_nonneg.mpr hs1)
          (mul_self_nonneg (1 - c / param_to_time d sr))]
      · show s + (1 - s) * (1 - c / param_to_time d sr) *
          (1 - c / param_to_time d sr) ≤ 1
        have hp2 : (1 - c / param_to_time d sr) *
            (1 - c / param_to_time d sr) ≤ 1 := by nlinarith
        nlinarith [mul_nonneg (sub_nonneg.mpr hs1) (sub_nonneg.mpr hp2)]
  | ENV_RELEASE =>
    simp only [envelope_process]
    split
    · exact ⟨⟨le_refl 0, by norm_num, ha0, ha1, hr0, hr1, by norm_num,
        by simp⟩, rfl, rfl⟩
    · rename_i hp
      have hq0 : 0 ≤ c / param_to_time r sr := div_nonneg hc0 htR.le
      have hq1 : c / param_to_time r sr < 1 := lt_of_not_ge hp
      refine ⟨⟨?_, ?_, ha0, ha1, hr0, hr1, by simp; linarith, by simp⟩,
        rfl, rfl⟩
      · show 0 ≤ rl * (1 - c / param_to_time r sr) *
          (1 - c / param_to_time r sr)
        have h1q : 0 ≤ 1 - c / param_to_time r sr := by linarith
        nlinarith [mul_nonneg (mul_nonneg hr0 h1q) h1q]
      · show rl * (1 - c / param_to_time r sr) *
          (1 - c / param_to_time r sr) ≤ 1
        have hp2 : (1 - c / param_to_time r sr) *
            (1 - c / param_to_time r sr) ≤ 1 := by nlinarith
        nlinarith [mul_nonneg hr0 (sub_nonneg.mpr hp2), hr1, hp2,
          mul_nonneg (sub_nonneg.mpr hr1) (sub_nonneg.mpr hp2)]

/-- Note on preserves the envelope invariant. -/
theorem engine_env_ok_note_on (e : moog_engine_t) (n : ℤ) (v : ℚ)
    (hi : engine_env_ok e) : engine_env_ok (moog_engine_note_on e n v) := by
  obtain ⟨⟨a1, a2, a3, a4, a5, a6, a7, a8⟩, ⟨b1, b2, b3, b4, b5, b6, b7, b8⟩⟩ := hi
  cases hg : e.gate_on
  · rw [note_on_gate_false_eq e n v hg]
    exact ⟨⟨a1, a2, a1, a2, a5, a6, le_refl 0, by simp [amp_vars]⟩,
      ⟨b1, b2, b1, b2, b5, b6, le_refl 0, by simp [filt_vars]⟩⟩
  · rw [note_on_gate_true_eq e n v hg]
    exact ⟨⟨a1, a2, a3, a4, a5, a6, a7, a8⟩, ⟨b1, b2, b3, b4, b5, b6, b7, b8⟩⟩

/-- Note off preserves the envelope invariant. -/
theorem engine_env_ok_note_off (e : moog_engine_t) (n : ℤ)
    (hi : engine_env_ok e) : engine_env_ok (moog_engine_note_off e n) := by
  obtain ⟨⟨a1, a2, a3, a4, a5, a6, a7, a8⟩, ⟨b1, b2, b3, b4, b5, b6, b7, b8⟩⟩ := hi
  simp only [moog_engine_note_off]
  split
  · split
    · exact ⟨⟨a1, a2, a3, a4, a5, a6, a7, a8⟩, ⟨b1, b2, b3, b4, b5, b6, b7, b8⟩⟩
    · exact ⟨⟨a1, a2, a3, a4, a5, a6, a7, a8⟩, ⟨b1, b2, b3, b4, b5, b6, b7, b8⟩⟩
  · split
    · split
      · exact ⟨⟨a1, a2, a3, a4, a1, a2, le_refl 0, by simp [amp_vars]⟩,
          ⟨b1, b2, b3, b4, b1, b2, le_refl 0, by simp [filt_vars]⟩⟩
      · exact ⟨⟨a1, a2, a3, a4, a1, a2, le_refl 0, by simp [amp_vars]⟩,
          ⟨b1, b2, b3, b4, b5, b6, b7, b8⟩⟩
    · split
      · exact ⟨⟨a1, a2, a3, a4, a5, a6, a7, a8⟩,
          ⟨b1, b2, b3, b4, b1, b2, le_refl 0, by simp [filt_vars]⟩⟩
      · exact ⟨⟨a1, a2, a3, a4, a5, a6, a7, a8⟩, ⟨b1, b2, b3, b4, b5, b6, b7, b8⟩⟩

/-- Reset establishes the envelope invariant outright. -/
theorem engine_env_ok_reset (e : moog_engine_t) (hi : engine_env_ok e) :
    engine_env_ok (moog_engine_reset e) := by
  obtain ⟨⟨_, _, a3, a4, a5, a6, _, _⟩, ⟨_, _, b3, b4, b5, b6, _, _⟩⟩ := hi
  exact ⟨⟨le_refl 0, zero_le_one, a3, a4, a5, a6, le_refl 0, fun _ => rfl⟩,
    ⟨le_refl 0, zero_le_one, b3, b4, b5, b6, le_refl 0, fun _ => rfl⟩⟩

/-- All notes off establishes the envelope invariant outright. -/
theorem engine_env_ok_all_notes_off (e : moog_engine_t) (hi : engine_env_ok e) :
    engine_env_ok (moog_engine_all_notes_off e) := by
  obtain ⟨⟨_, _, a3, a4, a5, a6, a7, _⟩, ⟨_, _, b3, b4, b5, b6, b7, _⟩⟩ := hi
  exact ⟨⟨le_refl 0, zero_le_one, a3, a4, a5, a6, a7, fun _ => rfl⟩,
    ⟨le_refl 0, zero_le_one, b3, b4, b5, b6, b7, fun _ => rfl⟩⟩

/-- A render step preserves the envelope invariant. -/
theorem engine_env_ok_render_sample (sinq : ℚ → ℚ) (fpow : ℚ → ℚ → ℚ)
    (frames : ℕ) (e : moog_engine_t) (hp : env_params_ok e)
    (hi : engine_env_ok e) :
    engine_env_ok (render_sample sinq fpow frames e).1 := by
  obtain ⟨hsr, _, _, _, _, hs0, hs1, _, _, _, _, _, _, hfs0, hfs1, _, _⟩ := hp
  obtain ⟨hia, hif⟩ := hi
  obtain ⟨⟨a1, a2, a3, a4, a5, a6, a7, a8⟩, _, _⟩ :=
    envelope_process_ok (amp_vars e) e.amp_attack e.amp_decay e.amp_sustain
      e.amp_release e.sample_rate hs0 hs1 hsr hia
  obtain ⟨⟨c1, c2, c3, c4, c5, c6, c7, c8⟩, _, _⟩ :=
    envelope_process_ok (filt_vars e) e.filt_attack e.filt_decay e.filt_sustain
      e.filt_release e.sample_rate hfs0 hfs1 hsr hif
  obtain ⟨⟨_, _, ha3, ha4, ha5, ha6, _, _⟩, ⟨_, _, hb3, hb4, hb5, hb6, _, _⟩⟩ :=
    And.intro hia hif
  exact ⟨⟨a1, a2, ha3, ha4, ha5, ha6, a7, a8⟩,
    ⟨c1, c2, hb3, hb4, hb5, hb6, c7, c8⟩⟩

/-- Every external call preserves the envelope invariant. -/
theorem engine_env_ok_apply_event (sinq : ℚ → ℚ) (fpow : ℚ → ℚ → ℚ)
    (e : moog_engine_t) (ev : moog_event) (hp : env_params_ok e)
    (hi : engine_env_ok e) :
    engine_env_ok (apply_event sinq fpow e ev) := by
  cases ev with
  | NoteOn n v => exact engine_env_ok_note_on e n v hi
  | NoteOff n => exact engine_env_ok_note_off e n hi
  | Reset => exact engine_env_ok_reset e hi
  | AllNotesOff => exact engine_env_ok_all_notes_off e hi
  | PitchBendEv b => exact hi
  | ModWheelEv a => exact hi
  | RenderStep frames => exact engine_env_ok_render_sample sinq fpow frames e hp hi

/-- No external call writes the envelope parameters or the sample rate. -/
theorem env_params_ok_apply_event (sinq : ℚ → ℚ) (fpow : ℚ → ℚ → ℚ)
    (e : moog_engine_t) (ev : moog_event) (hp : env_params_ok e) :
    env_params_ok (apply_event sinq fpow e ev) := by
  cases ev with
  | NoteOn n v =>
    cases hg : e.gate_on
    · rw [apply_event, note_on_gate_false_eq e n v hg]; exact hp
    · rw [apply_event, note_on_gate_true_eq e n v hg]; exact hp
  | NoteOff n =>
    show env_params_ok (moog_engine_note_off e n)
    simp only [moog_engine_note_off]
    split
    · split
      · exact hp
      · exact hp
    · split
      · split
        · exact hp
        · exact hp
      · split
        · exact hp
        · exact hp
  | Reset => exact hp
  | AllNotesOff => exact hp
  | PitchBendEv b => exact hp
  | ModWheelEv a => exact hp
  | RenderStep frames => exact hp

/-- The envelope invariant holds at every state a call sequence reaches. -/
theorem run_events_env_ok (sinq : ℚ → ℚ) (fpow : ℚ → ℚ → ℚ) :
    ∀ (evs : List moog_event) (e : moog_engine_t),
      env_params_ok e → engine_env_ok e →
      engine_env_ok (run_events sinq fpow e evs) := by
  intro evs
  induction evs with
  | nil => intro e _ hi; exact hi
  | cons ev rest ih =>
    intro e hp hi
    exact ih (apply_event sinq fpow e ev)
      (env_params_ok_apply_event sinq fpow e ev hp)
      (engine_env_ok_apply_event sinq fpow e ev hp hi)

/-- C3 (confirmed): starting from any engine whose envelope parameters are
normalized and whose envelopes satisfy the level invariant (as the
initialized engine does), after any sequence of events and per-sample
steps each envelope level lies in the unit interval, and an Off state
carries level zero. -/
theorem c3_envelope_level_invariant (sinq : ℚ → ℚ) (fpow : ℚ → ℚ → ℚ)
    (e : moog_engine_t) (evs : List moog_event)
    (hp : env_params_ok e) (hi : engine_env_ok e) :
    (0 ≤ (run_events sinq fpow e evs).amp_env_level ∧
      (run_events sinq fpow e evs).amp_env_level ≤ 1) ∧
    ((run_events sinq fpow e evs).amp_env_state = .ENV_OFF →
      (run_events sinq fpow e evs).amp_env_level = 0) ∧
    (0 ≤ (run_events sinq fpow e evs).filt_env_level ∧
      (run_events sinq fpow e evs).filt_env_level ≤ 1) ∧
    ((run_events sinq fpow e evs).filt_env_state = .ENV_OFF →
      (run_events sinq fpow e evs).filt_env_level = 0) := by
  obtain ⟨⟨a1, a2, _, _, _, _, _, a8⟩, ⟨b1, b2, _, _, _, _, _, b8⟩⟩ :=
    run_events_env_ok sinq fpow evs e hp hi
  exact ⟨⟨a1, a2⟩, a8, ⟨b1, b2⟩, b8⟩

/-- C3 witness: the level invariant after a concrete press, two rendered
samples, and a release on the initialized engine. -/
theorem c3_envelope_level_invariant_witness :
    (0 ≤ (run_events (fun _ => 0) (fun _ _ => 0) moog_engine_init
        [.NoteOn 60 1, .RenderStep 8, .NoteOff 60,
          .RenderStep 8]).amp_env_level ∧
      (run_events (fun _ => 0) (fun _ _ => 0) moog_engine_init
        [.NoteOn 60 1, .RenderStep 8, .NoteOff 60,
          .RenderStep 8]).amp_env_level ≤ 1) ∧
    ((run_events (fun _ => 0) (fun _ _ => 0) moog_engine_init
        [.NoteOn 60 1, .RenderStep 8, .NoteOff 60,
          .RenderStep 8]).amp_env_state = .ENV_OFF →
      (run_events (fun _ => 0) (fun _ _ => 0) moog_engine_init
        [.NoteOn 60 1, .RenderStep 8, .NoteOff 60,
          .RenderStep 8]).amp_env_level = 0) ∧
    (0 ≤ (run_events (fun _ => 0) (fun _ _ => 0) moog_engine_init
        [.NoteOn 60 1, .RenderStep 8, .NoteOff 60,
          .RenderStep 8]).filt_env_level ∧
      (run_events (fun _ => 0) (fun _ _ => 0) moog_engine_init
        [.NoteOn 60 1, .RenderStep 8, .NoteOff 60,
          .RenderStep 8]).filt_env_level ≤ 1) ∧
    ((run_events (fun _ => 0) (fun _ _ => 0) moog_engine_init
        [.NoteOn 60 1, .RenderStep 8, .NoteOff 60,
          .RenderStep 8]).filt_env_state = .ENV_OFF →
      (run_events (fun _ => 0) (fun _ _ => 0) moog_engine_init
        [.NoteOn 60 1, .RenderStep 8, .NoteOff 60,
          .RenderStep 8]).filt_env_level = 0) :=
  c3_envelope_level_invariant (fun _ => 0) (fun _ _ => 0) moog_engine_init
    [.NoteOn 60 1, .RenderStep 8, .NoteOff 60, .RenderStep 8]
    (by norm_num [env_params_ok, moog_engine_init, MOOG_SAMPLE_RATE])
    (by norm_num [engine_env_ok, env_vars_ok, amp_vars, filt_vars,
      moog_engine_init])

/-- Triangle inequality for three summands. -/
theorem abs_add_triple (a b c : ℚ) : |a + b + c| ≤ |a| + |b| + |c| := by
  have h1 := abs_add (a + b) c
  have h2 := abs_add a b
  linarith

/-- One filter step preserves the stage bounds for any input of
magnitude at most one and any feedback coefficient of magnitude at most
one. -/
theorem moog_filter_step_bounded (f fb x : ℚ) (hf0 : 0 ≤ f)
    (hf1 : f ≤ 1421/2500) (hfb : |fb| ≤ 1) (hx : |x| ≤ 1)
    (s : filter_taps_t) (hs : filter_taps_bounded f s) :
    filter_taps_bounded f (moog_filter_step f fb x s) := by
  obtain ⟨h0, h1, h2, h3, h4⟩ := hs
  have hf1' : (0:ℚ) ≤ 1 - f := by linarith
  have hxb : |x - s.b4 * fb| ≤ 5 := by
    have ht := abs_sub x (s.b4 * fb)
    have hm : |s.b4 * fb| ≤ 4 * 1 := by
      rw [abs_mul]
      exact mul_le_mul h4 hfb (abs_nonneg _) (by norm_num)
    linarith
  have hinput : |(x - s.b4 * fb) * (35013/100000 * f * f * f * f)| ≤
      175065/100000 * f ^ 4 := by
    rw [abs_mul, abs_of_nonneg (by positivity :
      (0:ℚ) ≤ 35013/100000 * f * f * f * f)]
    nlinarith [mul_le_mul_of_nonneg_right hxb (by positivity :
      (0:ℚ) ≤ 35013/100000 * f * f * f * f)]
  have e1 : |(x - s.b4 * fb) * (35013/100000 * f * f * f * f) +
      3/10 * s.b0 + (1 - f) * s.b1| ≤ 13/10 * (175065/100000) * f ^ 3 := by
    have ht := abs_add_triple ((x - s.b4 * fb) * (35013/100000 * f * f * f * f))
      (3/10 * s.b0) ((1 - f) * s.b1)
    rw [abs_mul (3/10 : ℚ) s.b0, abs_mul (1 - f) s.b1,
      abs_of_nonneg (by norm_num : (0:ℚ) ≤ 3/10),
      abs_of_nonneg hf1'] at ht
    nlinarith [ht, hinput, mul_le_mul_of_nonneg_left h0
        (by norm_num : (0:ℚ) ≤ 3/10),
      mul_le_mul_of_nonneg_left h1 hf1']
  set B1 := (x - s.b4 * fb) * (35013/100000 * f * f * f * f) +
    3/10 * s.b0 + (1 - f) * s.b1 with hB1
  have e2 : |B1 + 3/10 * B1 + (1 - f) * s.b2| ≤
      169/100 * (175065/100000) * f ^ 2 := by
    have ht := abs_add_triple B1 (3/10 * B1) ((1 - f) * s.b2)
    rw [abs_mul (3/10 : ℚ) B1, abs_mul (1 - f) s.b2,
      abs_of_nonneg (by norm_num : (0:ℚ) ≤ 3/10),
      abs_of_nonneg hf1'] at ht
    nlinarith [ht, e1, mul_le_mul_of_nonneg_left e1
        (by norm_num : (0:ℚ) ≤ 3/10),
      mul_le_mul_of_nonneg_left h2 hf1']
  set B2 := B1 + 3/10 * B1 + (1 - f) * s.b2 with hB2
  have e3 : |B2 + 3/10 * B2 + (1 - f) * s.b3| ≤
      2197/1000 * (175065/100000) * f := by
    have ht := abs_add_triple B2 (3/10 * B2) ((1 - f) * s.b3)
    rw [abs_mul (3/10 : ℚ) B2, abs_mul (1 - f) s.b3,
      abs_of_nonneg (by norm_num : (0:ℚ) ≤ 3/10),
      abs_of_nonneg hf1'] at ht
    nlinarith [ht, e2, mul_le_mul_of_nonneg_left e2
        (by norm_num : (0:ℚ) ≤ 3/10),
      mul_le_mul_of_nonneg_left h3 hf1']
  set B3 := B2 + 3/10 * B2 + (1 - f) * s.b3 with hB3
  have e4 : |(if B3 + 3/10 * B3 + (1 - f) * s.b4 > 4 then (4:ℚ)
      else if B3 + 3/10 * B3 + (1 - f) * s.b4 < -4 then -4
      else B3 + 3/10 * B3 + (1 - f) * s.b4)| ≤ 4 := by
    split
    · norm_num
    · split
      · norm_num
      · rename_i hgt hlt
        rw [abs_le]
        constructor <;> linarith [not_lt.mp hgt, not_lt.mp hlt]
  exact ⟨hinput, e1, e2, e3, e4⟩

/-- The clamped normalized cutoff lies between 0.001 and 0.49. -/
theorem filter_fc_bounds (cutoff_hz sr : ℚ) :
    1/1000 ≤ filter_fc cutoff_hz sr ∧ filter_fc cutoff_hz sr ≤ 49/100 := by
  unfold filter_fc
  simp only []
  constructor <;>
    (split <;> split <;>
      first
        | (norm_num; done)
        | (rename_i hA hB; simp only [not_lt] at hA hB; linarith))

/-- The filter frame loop preserves the stage bounds and every written
output sample is the clamped final tap, bounded by 4. -/
theorem filter_go_bounded (f fb : ℚ) (hf0 : 0 ≤ f) (hf1 : f ≤ 1421/2500)
    (hfb : |fb| ≤ 1) :
    ∀ (xs : List ℚ) (s : filter_taps_t), (∀ x ∈ xs, |x| ≤ 1) →
      filter_taps_bounded f s →
      filter_taps_bounded f (moog_filter_go f fb s xs).1 ∧
      ∀ y ∈ (moog_filter_go f fb s xs).2, |y| ≤ 4 := by
  intro xs
  induction xs with
  | nil =>
    intro s _ hs
    exact ⟨hs, by simp [moog_filter_go]⟩
  | cons x rest ih =>
    intro s hx hs
    have hs' := moog_filter_step_bounded f fb x hf0 hf1 hfb
      (hx x (by simp)) s hs
    have hrest := ih (moog_filter_step f fb x s)
      (fun y hy => hx y (by simp [hy])) hs'
    refine ⟨hrest.1, ?_⟩
    intro y hy
    simp only [moog_filter_go, List.mem_cons] at hy
    rcases hy with hy | hy
    · rw [hy]
      exact hs'.2.2.2.2
    · exact hrest.2 y hy

/-- The zeroed filter state satisfies the stage bounds. -/
theorem filter_taps_zero_bounded (f : ℚ) (hf0 : 0 ≤ f) :
    filter_taps_bounded f filter_taps_zero := by
  refine ⟨?_, ?_, ?_, ?_, ?_⟩ <;> simp [filter_taps_zero] <;> positivity

/-- The stage bounds imply every tap has magnitude at most 4. -/
theorem filter_taps_bounded_le_four (f : ℚ) (s : filter_taps_t)
    (hf0 : 0 ≤ f) (hf1 : f ≤ 1421/2500) (h : filter_taps_bounded f s) :
    |s.b0| ≤ 4 ∧ |s.b1| ≤ 4 ∧ |s.b2| ≤ 4 ∧ |s.b3| ≤ 4 ∧ |s.b4| ≤ 4 := by
  obtain ⟨h0, h1, h2, h3, h4⟩ := h
  have hp4 : f ^ 4 ≤ (1421/2500 : ℚ) ^ 4 := pow_le_pow_left₀ hf0 hf1 4
  have hp3 : f ^ 3 ≤ (1421/2500 : ℚ) ^ 3 := pow_le_pow_left₀ hf0 hf1 3
  have hp2 : f ^ 2 ≤ (1421/2500 : ℚ) ^ 2 := pow_le_pow_left₀ hf0 hf1 2
  refine ⟨by nlinarith, by nlinarith, by nlinarith, by nlinarith, h4⟩

/-- C2 (confirmed): with resonance 1.0, any cutoff frequency and sample
rate, and any input excitation bounded by one in magnitude (in particular
a unit step of any length), every filter tap stays within plus or minus 4
after the block, and the final-stage tap written to the output is within
plus or minus 4 after every processed sample. -/
theorem c2_filter_tap_bound (cutoff_hz sample_rate : ℚ) (xs : List ℚ)
    (hx : ∀ x ∈ xs, |x| ≤ 1) :
    (|(moog_filter_process cutoff_hz 1 sample_rate filter_taps_zero
        xs).1.b0| ≤ 4 ∧
     |(moog_filter_process cutoff_hz 1 sample_rate filter_taps_zero
        xs).1.b1| ≤ 4 ∧
     |(moog_filter_process cutoff_hz 1 sample_rate filter_taps_zero
        xs).1.b2| ≤ 4 ∧
     |(moog_filter_process cutoff_hz 1 sample_rate filter_taps_zero
        xs).1.b3| ≤ 4 ∧
     |(moog_filter_process cutoff_hz 1 sample_rate filter_taps_zero
        xs).1.b4| ≤ 4) ∧
    ∀ y ∈ (moog_filter_process cutoff_hz 1 sample_rate filter_taps_zero
        xs).2, |y| ≤ 4 := by
  obtain ⟨hfc1, hfc2⟩ := filter_fc_bounds cutoff_hz sample_rate
  have hf0 : (0:ℚ) ≤ filter_fc cutoff_hz sample_rate * (29/25) := by linarith
  have hf1 : filter_fc cutoff_hz sample_rate * (29/25) ≤ 1421/2500 := by
    linarith
  have hfb : |(1 : ℚ) * (1 - 3/20 * (filter_fc cutoff_hz sample_rate * (29/25))
      * (filter_fc cutoff_hz sample_rate * (29/25)))| ≤ 1 := by
    rw [one_mul, abs_le]
    constructor <;> nlinarith
  have hrun := filter_go_bounded
    (filter_fc cutoff_hz sample_rate * (29/25))
    (1 * (1 - 3/20 * (filter_fc cutoff_hz sample_rate * (29/25))
      * (filter_fc cutoff_hz sample_rate * (29/25))))
    hf0 hf1 hfb xs filter_taps_zero hx (filter_taps_zero_bounded _ hf0)
  exact ⟨filter_taps_bounded_le_four _ _ hf0 hf1 hrun.1, hrun.2⟩

/-- C2 witness: a three-sample unit step at 1 kHz cutoff and the 44100 Hz
sample rate. -/
theorem c2_filter_tap_bound_witness :
    (|(moog_filter_process 1000 1 44100 filter_taps_zero
        [1, 1, 1]).1.b0| ≤ 4 ∧
     |(moog_filter_process 1000 1 44100 filter_taps_zero
        [1, 1, 1]).1.b1| ≤ 4 ∧
     |(moog_filter_process 1000 1 44100 filter_taps_zero
        [1, 1, 1]).1.b2| ≤ 4 ∧
     |(moog_filter_process 1000 1 44100 filter_taps_zero
        [1, 1, 1]).1.b3| ≤ 4 ∧
     |(moog_filter_process 1000 1 44100 filter_taps_zero
        [1, 1, 1]).1.b4| ≤ 4) ∧
    ∀ y ∈ (moog_filter_process 1000 1 44100 filter_taps_zero
        [1, 1, 1]).2, |y| ≤ 4 :=
  c2_filter_tap_bound 1000 44100 [1, 1, 1] (by norm_num)

/-- C9 (confirmed): for any MIDI note n with n and n + 12 in range, the
note-to-frequency map satisfies octave doubling up to a relative error
below ten to the minus twelve, because the tuning ratio constant raised to
the twelfth power differs from two by about one part in ten to the
thirteen. -/
theorem c9_octave_doubling (n : ℤ) (h0 : 0 ≤ n) (h127 : n + 12 ≤ 127) :
    |note_to_hz (n + 12) - 2 * note_to_hz n| ≤ 1/10^12 * note_to_hz n := by
  have hrne : (10594630943593 / 10000000000000 : ℚ) ≠ 0 := by norm_num
  have hsplit : note_to_hz (n + 12) =
      note_to_hz n * (10594630943593 / 10000000000000 : ℚ) ^ (12:ℤ) := by
    unfold note_to_hz
    rw [zpow_add₀ hrne]
    ring
  have hr12 : |(10594630943593 / 10000000000000 : ℚ) ^ (12:ℤ) - 2| ≤
      1/10^12 := by
    rw [show ((12:ℤ)) = ((12:ℕ):ℤ) from rfl, zpow_natCast, abs_le]
    constructor <;> norm_num
  have hpos := note_to_hz_pos n
  rw [hsplit, show note_to_hz n * (10594630943593 / 10000000000000 : ℚ) ^ (12:ℤ)
      - 2 * note_to_hz n =
    note_to_hz n * ((10594630943593 / 10000000000000 : ℚ) ^ (12:ℤ) - 2) by ring,
    abs_mul, abs_of_pos hpos]
  nlinarith [mul_le_mul_of_nonneg_left hr12 hpos.le]

/-- C9 witness: octave doubling at middle C. -/
theorem c9_octave_doubling_witness :
    |note_to_hz (60 + 12) - 2 * note_to_hz 60| ≤ 1/10^12 * note_to_hz 60 :=
  c9_octave_doubling 60 (by norm_num) (by norm_num)

/-- The lower clamp of the oscillator period is a binary maximum. -/
theorem ite_lt_two_eq_max (p : ℝ) : (if p < 2 then (2:ℝ) else p) = max 2 p := by
  split
  · rename_i h
    exact (max_eq_left h.le).symm
  · rename_i h
    exact (max_eq_right (not_lt.mp h)).symm

/-- Skipping the range multiply at range zero equals multiplying by the
zeroth power. -/
theorem range_pow_eq (range : ℤ) (p : ℝ) :
    (if range ≠ 0 then p * (2:ℝ) ^ (-(range:ℝ)) else p) =
      p * (2:ℝ) ^ (-(range:ℝ)) := by
  split
  · rfl
  · rename_i h
    rw [not_not.mp h]
    norm_num

/-- C6 (amended): whenever the detune guards hold, that is the second and
third oscillator detunes are above 0.001 in magnitude and the fourth
oscillator detune is more than 0.001 away from center, every oscillator
slot computes exactly the claimed period formula; oscillator 1 always
does. -/
theorem c6_osc_effective_period (cp : ℝ) (range : ℤ) (d2 d3 d4 : ℝ)
    (h2 : |d2| > 1/1000) (h3 : |d3| > 1/1000) (h4 : |d4 - 1/2| > 1/1000) :
    osc_effective_period cp range d2 d3 d4 0 =
      spec_effective_period cp range 0 0 ∧
    osc_effective_period cp range d2 d3 d4 1 =
      spec_effective_period cp range d2 1 ∧
    osc_effective_period cp range d2 d3 d4 2 =
      spec_effective_period cp range d3 2 ∧
    osc_effective_period cp range d2 d3 d4 3 =
      spec_effective_period cp range d4 3 := by
  have t01 : ¬((0:Fin 4) = 1) := by decide
  have t02 : ¬((0:Fin 4) = 2) := by decide
  have t03 : ¬((0:Fin 4) = 3) := by decide
  have t12 : ¬((1:Fin 4) = 2) := by decide
  have t13 : ¬((1:Fin 4) = 3) := by decide
  have t10 : ¬((1:Fin 4) = 0) := by decide
  have t21 : ¬((2:Fin 4) = 1) := by decide
  have t23 : ¬((2:Fin 4) = 3) := by decide
  have t20 : ¬((2:Fin 4) = 0) := by decide
  have t31 : ¬((3:Fin 4) = 1) := by decide
  have t32 : ¬((3:Fin 4) = 2) := by decide
  have t30 : ¬((3:Fin 4) = 0) := by decide
  refine ⟨?_, ?_, ?_, ?_⟩ <;>
    (simp only [osc_effective_period, spec_effective_period]
     rw [range_pow_eq]
     norm_num [h2, h3, h4, t01, t02, t03, t12, t13, t10, t21, t23, t20,
       t31, t32, t30, ite_lt_two_eq_max])

/-- C6 counterexample: at detune 0 the claimed formula prescribes a minus
fifty cent factor, but the code skips the detune multiply because its
guard compares the detune against zero, so the computed period differs
from the claimed one. -/
theorem c6_detune_zero_counterexample :
    osc_effective_period 100 0 0 0 0 1 ≠ spec_effective_period 100 0 0 1 := by
  have t12 : ¬((1:Fin 4) = 2) := by decide
  have t13 : ¬((1:Fin 4) = 3) := by decide
  have t10 : ¬((1:Fin 4) = 0) := by decide
  have hgt : (1:ℝ) < (2:ℝ) ^ (-(((0:ℝ) - 1/2) * 100) / 1200) := by
    rw [show -(((0:ℝ) - 1/2) * 100) / 1200 = 1/24 by norm_num,
      Real.one_lt_rpow_iff_of_pos (by norm_num : (0:ℝ) < 2)]
    left
    constructor <;> norm_num
  have hcode : osc_effective_period 100 0 0 0 0 1 = 100 := by
    simp only [osc_effective_period]
    norm_num [abs_zero, t12, t13]
  have hspec : spec_effective_period 100 0 0 1 =
      100 * (2:ℝ) ^ (-(((0:ℝ) - 1/2) * 100) / 1200) := by
    simp only [spec_effective_period]
    rw [if_neg t10, show (-((0:ℤ):ℝ)) = 0 by norm_num, Real.rpow_zero,
      mul_one]
    exact max_eq_right (by linarith)
  rw [hcode, hspec]
  exact ne_of_lt (by linarith)

/-- C6 witness: the amended formula at concrete in-guard detunes. -/
theorem c6_osc_effective_period_witness :
    osc_effective_period 100 1 (3/4) (3/4) (3/4) 0 =
      spec_effective_period 100 1 0 0 ∧
    osc_effective_period 100 1 (3/4) (3/4) (3/4) 1 =
      spec_effective_period 100 1 (3/4) 1 ∧
    osc_effective_period 100 1 (3/4) (3/4) (3/4) 2 =
      spec_effective_period 100 1 (3/4) 2 ∧
    osc_effective_period 100 1 (3/4) (3/4) (3/4) 3 =
      spec_effective_period 100 1 (3/4) 3 :=
  c6_osc_effective_period 100 1 (3/4) (3/4) (3/4)
    (by rw [show |(3:ℝ)/4| = 3/4 from abs_of_nonneg (by norm_num)]; norm_num)
    (by rw [show |(3:ℝ)/4| = 3/4 from abs_of_nonneg (by norm_num)]; norm_num)
    (by rw [show ((3:ℝ)/4 - 1/2) = 1/4 by norm_num,
      show |(1:ℝ)/4| = 1/4 from abs_of_nonneg (by norm_num)]; norm_num)
